import Mathlib

/-!
Verification development for the drexel-sentinel repository.

Python strings are embedded as lists of characters (`PyStr`); the tool
functions from src/engine/tools.py, the wrapper-tool thread-id logic from
src/engine/agent.py and the message adapter from src/bot.py are translated
into executable Lean definitions.  External services (Google Calendar,
the vector store) are modelled as explicit oracle arguments describing the
outcome of each external call; an escaped Python exception is modelled as
an `Except.error` result.
-/

/-- Embedding of a Python `str` as a list of characters. -/
abbrev PyStr := List Char

/-- Decidable equality for `Except`, so counterexamples and witnesses can
be settled by evaluation. -/
instance exceptDecEq {ε α : Type} [DecidableEq ε] [DecidableEq α] :
    DecidableEq (Except ε α) := fun a b =>
  match a, b with
  | Except.ok x, Except.ok y =>
    if h : x = y then isTrue (by rw [h])
    else isFalse (fun hh => h (Except.ok.inj hh))
  | Except.error x, Except.error y =>
    if h : x = y then isTrue (by rw [h])
    else isFalse (fun hh => h (Except.error.inj hh))
  | Except.ok _, Except.error _ => isFalse (fun hh => Except.noConfusion hh)
  | Except.error _, Except.ok _ => isFalse (fun hh => Except.noConfusion hh)

/-- Embedding of Python `str.upper` (character-wise upper-casing). -/
def pyUpper (s : PyStr) : PyStr := s.map Char.toUpper

/-- Embedding of Python `str.lower` (character-wise lower-casing). -/
def pyLower (s : PyStr) : PyStr := s.map Char.toLower

/-- Whitespace characters removed by Python `str.strip()`. -/
def pyWhitespace (c : Char) : Bool :=
  c = ' ' || c = '\t' || c = '\n' || c = '\r' || c = '\x0b' || c = '\x0c'

/-- Embedding of Python `str.strip()`: drop whitespace from both ends. -/
def pyStrip (s : PyStr) : PyStr :=
  ((s.dropWhile pyWhitespace).reverse.dropWhile pyWhitespace).reverse

/-- Embedding of the Python substring test `pat in s`. -/
def pySubstr (pat : PyStr) : PyStr → Bool
  | [] => pat.isEmpty
  | c :: rest => decide ((c :: rest).take pat.length = pat) || pySubstr pat rest

/-- Fuel-driven scan implementing Python `s.replace(pat, "")`; the fuel is
at least the length of the remaining input, so it never runs out. -/
def delOccAux (pat : PyStr) : Nat → PyStr → PyStr
  | _, [] => []
  | 0, s => s
  | fuel + 1, c :: rest =>
    if 0 < pat.length ∧ (c :: rest).take pat.length = pat then
      delOccAux pat fuel ((c :: rest).drop pat.length)
    else
      c :: delOccAux pat fuel rest

/-- Embedding of Python `s.replace(pat, "")`: delete the non-overlapping
occurrences of `pat` in a single left-to-right scan. -/
def delOcc (pat s : PyStr) : PyStr := delOccAux pat s.length s

/-- Character of a decimal digit value. -/
def digitChar (n : Nat) : Char := Char.ofNat (48 + n)

/-- Fuel-driven most-significant-first decimal rendering. -/
def natDigitsAux : Nat → Nat → PyStr
  | 0, _ => []
  | fuel + 1, n =>
    if n < 10 then [digitChar n]
    else natDigitsAux fuel (n / 10) ++ [digitChar (n % 10)]

/-- Decimal rendering of a natural number, modelling Python's `str(int)`
conversion used by f-string interpolation. -/
def natDigits (n : Nat) : PyStr := natDigitsAux (n + 1) n

/- ===== Calendar tool (src/engine/tools.py) ===== -/

/-- The fixed timezone configured in tools.py. -/
def TIMEZONE : PyStr := "America/New_York".data

/-- Placeholder values recognized for `time_str` in `add_to_calendar`
(compared against `time_str.upper()`). -/
def timePlaceholders : List PyStr :=
  ["TBD".data, "NONE".data, "UNKNOWN".data, "N/A".data]

/-- Placeholder values recognized for `location` and `description` in the
event-building code of `add_to_calendar` (note: this list has no "N/A"). -/
def fieldPlaceholders : List PyStr :=
  ["TBD".data, "NONE".data, "UNKNOWN".data]

/-- Embedding of the `is_timed` condition of `add_to_calendar`:
`time_str and time_str.strip() and time_str.upper() not in [...]`. -/
def is_timed (t : PyStr) : Bool :=
  decide (t ≠ [] ∧ pyStrip t ≠ [] ∧ pyUpper t ∉ timePlaceholders)

/-- Start or end bound of a Google Calendar event body: either a date-only
(all-day) bound or a dateTime bound with a timezone. -/
inductive EventTime where
  | allDay (date : PyStr)
  | timed (dateTime : PyStr) (timeZone : PyStr)
deriving DecidableEq, Repr

/-- The event body built by `add_to_calendar`. -/
structure GEvent where
  summary : PyStr
  location : Option PyStr
  description : Option PyStr
  colorId : Option PyStr
  start : EventTime
  end_ : EventTime
deriving DecidableEq, Repr

/-- Exam-keyword test of `add_to_calendar`:
`any(kw in title.lower() for kw in ["exam", "midterm", "quiz"])`. -/
def hasExamKeyword (title : PyStr) : Bool :=
  pySubstr ("exam".data) (pyLower title) ||
  pySubstr ("midterm".data) (pyLower title) ||
  pySubstr ("quiz".data) (pyLower title)

/-- The `color_id` computed by `add_to_calendar`. -/
def color_id (title : PyStr) : Option PyStr :=
  if hasExamKeyword title then some ("8".data) else none

/-- Normalization of `location` / `description` in the timed branch:
`v if v and v.upper() not in ["TBD", "NONE", "UNKNOWN"] else None`. -/
def norm_timed (v : PyStr) : Option PyStr :=
  if v ≠ [] ∧ pyUpper v ∉ fieldPlaceholders then some v else none

/-- Normalization of `location` / `description` in the all-day branch:
`v if v and v.strip() and v.upper() not in ["TBD", "NONE", "UNKNOWN"] else None`. -/
def norm_allday (v : PyStr) : Option PyStr :=
  if v ≠ [] ∧ pyStrip v ≠ [] ∧ pyUpper v ∉ fieldPlaceholders then some v else none

/- ===== Python strptime / datetime arithmetic ===== -/

/-- A Python `datetime.datetime` value (date and time components). -/
structure PyDateTime where
  year : Nat
  month : Nat
  day : Nat
  hour : Nat
  minute : Nat
  second : Nat
deriving DecidableEq, Repr

/-- Numeric value of a decimal digit character. -/
def dval (c : Char) : Nat := c.toNat - 48

/-- Try a list of candidate parses (in regex alternation order) against a
continuation, backtracking to the next candidate on failure. -/
def tryAll {α : Type} : List (Nat × PyStr) → ((Nat × PyStr) → Option α) → Option α
  | [], _ => none
  | c :: cs, k => match k c with
    | some r => some r
    | none => tryAll cs k

/-- Consume one expected literal character. -/
def lit (ch : Char) : PyStr → Option PyStr
  | c :: rest => if c = ch then some rest else none
  | [] => none

/-- The `%Y` directive of CPython strptime: exactly four decimal digits. -/
def yearParse : PyStr → Option (Nat × PyStr)
  | a :: b :: c :: d :: rest =>
    if a.isDigit ∧ b.isDigit ∧ c.isDigit ∧ d.isDigit then
      some (1000 * dval a + 100 * dval b + 10 * dval c + dval d, rest)
    else none
  | _ => none

/-- The `%m` directive of CPython strptime, candidates in the order of the
regex alternation `1[0-2]|0[1-9]|[1-9]`. -/
def monthCands : PyStr → List (Nat × PyStr)
  | a :: b :: rest =>
    (if a = '1' ∧ '0' ≤ b ∧ b ≤ '2' then [(10 + dval b, rest)] else []) ++
    (if a = '0' ∧ '1' ≤ b ∧ b ≤ '9' then [(dval b, rest)] else []) ++
    (if '1' ≤ a ∧ a ≤ '9' then [(dval a, b :: rest)] else [])
  | [a] => if '1' ≤ a ∧ a ≤ '9' then [(dval a, [])] else []
  | [] => []

/-- The `%d` directive of CPython strptime, regex
`3[01]|[12]\d|0[1-9]|[1-9]| [1-9]`; the final space-padded-day alternative
is kept by CPython to make `%c` from ANSI C work. -/
def dayCands : PyStr → List (Nat × PyStr)
  | a :: b :: rest =>
    (if a = '3' ∧ '0' ≤ b ∧ b ≤ '1' then [(30 + dval b, rest)] else []) ++
    (if ('1' ≤ a ∧ a ≤ '2') ∧ b.isDigit then [(10 * dval a + dval b, rest)] else []) ++
    (if a = '0' ∧ '1' ≤ b ∧ b ≤ '9' then [(dval b, rest)] else []) ++
    (if '1' ≤ a ∧ a ≤ '9' then [(dval a, b :: rest)] else []) ++
    (if a = ' ' ∧ '1' ≤ b ∧ b ≤ '9' then [(dval b, rest)] else [])
  | [a] => if '1' ≤ a ∧ a ≤ '9' then [(dval a, [])] else []
  | [] => []

/-- The `%H` directive of CPython strptime, regex `2[0-3]|[0-1]\d|\d`. -/
def hourCands : PyStr → List (Nat × PyStr)
  | a :: b :: rest =>
    (if a = '2' ∧ '0' ≤ b ∧ b ≤ '3' then [(20 + dval b, rest)] else []) ++
    (if ('0' ≤ a ∧ a ≤ '1') ∧ b.isDigit then [(10 * dval a + dval b, rest)] else []) ++
    (if a.isDigit then [(dval a, b :: rest)] else [])
  | [a] => if a.isDigit then [(dval a, [])] else []
  | [] => []

/-- The `%M` directive of CPython strptime, regex `[0-5]\d|\d`. -/
def minuteCands : PyStr → List (Nat × PyStr)
  | a :: b :: rest =>
    (if ('0' ≤ a ∧ a ≤ '5') ∧ b.isDigit then [(10 * dval a + dval b, rest)] else []) ++
    (if a.isDigit then [(dval a, b :: rest)] else [])
  | [a] => if a.isDigit then [(dval a, [])] else []
  | [] => []

/-- The `%S` directive of CPython strptime, regex `6[0-1]|[0-5]\d|\d`. -/
def secondCands : PyStr → List (Nat × PyStr)
  | a :: b :: rest =>
    (if a = '6' ∧ '0' ≤ b ∧ b ≤ '1' then [(60 + dval b, rest)] else []) ++
    (if ('0' ≤ a ∧ a ≤ '5') ∧ b.isDigit then [(10 * dval a + dval b, rest)] else []) ++
    (if a.isDigit then [(dval a, b :: rest)] else [])
  | [a] => if a.isDigit then [(dval a, [])] else []
  | [] => []

/-- Regex phase of `datetime.strptime(s, "%Y-%m-%dT%H:%M:%S")`: matching with
backtracking, requiring the whole input to be consumed. -/
def rawParse (s : PyStr) : Option PyDateTime :=
  match yearParse s with
  | none => none
  | some (y, r1) =>
    match lit '-' r1 with
    | none => none
    | some r2 =>
      tryAll (monthCands r2) fun (m, r3) =>
        match lit '-' r3 with
        | none => none
        | some r4 =>
          tryAll (dayCands r4) fun (d, r5) =>
            match lit 'T' r5 with
            | none => none
            | some r6 =>
              tryAll (hourCands r6) fun (h, r7) =>
                match lit ':' r7 with
                | none => none
                | some r8 =>
                  tryAll (minuteCands r8) fun (mi, r9) =>
                    match lit ':' r9 with
                    | none => none
                    | some r10 =>
                      tryAll (secondCands r10) fun (se, r11) =>
                        if r11 = [] then some ⟨y, m, d, h, mi, se⟩ else none

/-- Gregorian leap-year rule, as used by Python's datetime. -/
def isLeap (y : Nat) : Bool :=
  decide (y % 4 = 0 ∧ (¬ y % 100 = 0 ∨ y % 400 = 0))

/-- Number of days in a month of a given year. -/
def daysInMonth (y m : Nat) : Nat :=
  if m = 2 then (if isLeap y then 29 else 28)
  else if m = 4 ∨ m = 6 ∨ m = 9 ∨ m = 11 then 30
  else 31

/-- Range validation performed by the `datetime` constructor. -/
def validDT (t : PyDateTime) : Bool :=
  decide (1 ≤ t.year ∧ t.year ≤ 9999 ∧ 1 ≤ t.month ∧ t.month ≤ 12 ∧
    1 ≤ t.day ∧ t.day ≤ daysInMonth t.year t.month ∧
    t.hour ≤ 23 ∧ t.minute ≤ 59 ∧ t.second ≤ 59)

/-- Embedding of `datetime.strptime(s, "%Y-%m-%dT%H:%M:%S")`: regex match
followed by the constructor's range validation; `none` models ValueError. -/
def strptime_ymdhms (s : PyStr) : Option PyDateTime :=
  match rawParse s with
  | none => none
  | some t => if validDT t then some t else none

/-- Embedding of `start_obj + datetime.timedelta(hours=1)`; `none` models the
OverflowError raised past `datetime.max` (year 9999). -/
def addHour (t : PyDateTime) : Option PyDateTime :=
  if t.hour + 1 ≤ 23 then some { t with hour := t.hour + 1 }
  else if t.day + 1 ≤ daysInMonth t.year t.month then
    some { t with hour := 0, day := t.day + 1 }
  else if t.month + 1 ≤ 12 then
    some { t with hour := 0, day := 1, month := t.month + 1 }
  else if t.year + 1 ≤ 9999 then
    some { t with hour := 0, day := 1, month := 1, year := t.year + 1 }
  else none

/-- Zero-padded two-digit decimal rendering (strftime field). -/
def pad2 (n : Nat) : PyStr := if n < 10 then '0' :: natDigits n else natDigits n

/-- Zero-padded four-digit decimal rendering (strftime `%Y` field). -/
def pad4 (n : Nat) : PyStr :=
  if n < 10 then '0' :: '0' :: '0' :: natDigits n
  else if n < 100 then '0' :: '0' :: natDigits n
  else if n < 1000 then '0' :: natDigits n
  else natDigits n

/-- Embedding of `dt.strftime("%Y-%m-%dT%H:%M:%S")`. -/
def strftime_ymdhms (t : PyDateTime) : PyStr :=
  pad4 t.year ++ ('-' :: pad2 t.month) ++ ('-' :: pad2 t.day) ++
  ('T' :: pad2 t.hour) ++ (':' :: pad2 t.minute) ++ (':' :: pad2 t.second)

/-- Days contributed by the months strictly before month `m` in a non-leap
year (cumulative month offsets). -/
def monthOffset (m : Nat) : Nat :=
  if m = 1 then 0
  else if m = 2 then 31
  else if m = 3 then 59
  else if m = 4 then 90
  else if m = 5 then 120
  else if m = 6 then 151
  else if m = 7 then 181
  else if m = 8 then 212
  else if m = 9 then 243
  else if m = 10 then 273
  else if m = 11 then 304
  else 334

/-- Days in year `y` strictly before month `m` (leap-corrected). -/
def daysBeforeMonth (y m : Nat) : Nat :=
  monthOffset m + (if 3 ≤ m ∧ isLeap y then 1 else 0)

/-- Days strictly before year `y` in the proleptic Gregorian calendar. -/
def daysBeforeYear (y : Nat) : Nat :=
  365 * (y - 1) + (y - 1) / 4 + (y - 1) / 400 - (y - 1) / 100

/-- Day ordinal of a datetime value (days since 0001-01-01). -/
def toOrdinal (t : PyDateTime) : Nat :=
  daysBeforeYear t.year + daysBeforeMonth t.year t.month + (t.day - 1)

/-- Seconds since 0001-01-01T00:00:00 of a datetime value; the linear time
scale on which "one hour later" means an increase of exactly 3600. -/
def toSecs (t : PyDateTime) : Nat :=
  toOrdinal t * 86400 + t.hour * 3600 + t.minute * 60 + t.second

/-- Message of the OverflowError raised by datetime addition past year 9999. -/
def overflowMsg : PyStr := "OverflowError: date value out of range".data

/-- The all-day event body built by `add_to_calendar`. -/
def alldayEvent (title date_str location description : PyStr)
    (cid : Option PyStr) : GEvent :=
  { summary := title
    location := norm_allday location
    description := norm_allday description
    colorId := cid
    start := EventTime.allDay date_str
    end_ := EventTime.allDay date_str }

/-- Event-building phase of `add_to_calendar` (everything before the insert
call).  An `Except.error` result models an escaped Python exception. -/
def build_event (title date_str time_str location description : PyStr) :
    Except PyStr GEvent :=
  if is_timed time_str then
    match strptime_ymdhms (date_str ++ "T".data ++ time_str ++ ":00".data) with
    | none =>
      Except.ok (alldayEvent title date_str location description (color_id title))
    | some t0 =>
      match addHour t0 with
      | none => Except.error overflowMsg
      | some t1 =>
        Except.ok
          { summary := title
            location := norm_timed location
            description := norm_timed description
            colorId := color_id title
            start := EventTime.timed (date_str ++ "T".data ++ time_str ++ ":00".data)
              TIMEZONE
            end_ := EventTime.timed (strftime_ymdhms t1) TIMEZONE }
  else
    Except.ok (alldayEvent title date_str location description (color_id title))

/-- Embedding of the tool `add_to_calendar`.  The `api` argument is the
outcome of the external `events().insert(...).execute()` call; the result
carries the built event body and the returned string.  An `Except.error`
result of the whole function models an escaped Python exception. -/
def add_to_calendar (title date_str time_str location description : PyStr)
    (api : Except PyStr Unit) : Except PyStr (GEvent × PyStr) :=
  match build_event title date_str time_str location description with
  | Except.error e => Except.error e
  | Except.ok ev =>
    Except.ok (ev,
      match api with
      | Except.ok _ =>
        "Successfully added '".data ++ title ++ "' for ".data ++ date_str ++
        " (Room: ".data ++ (if description = [] then "N/A".data else description) ++
        ").".data
      | Except.error e => "Error adding event: ".data ++ e)

/- ===== delete_event and search_syllabi (src/engine/tools.py) ===== -/

/-- An item returned by the calendar `events().list` call. -/
structure CalItem where
  id : PyStr
  summary : PyStr
deriving DecidableEq, Repr

/-- Oracle describing the outcomes of the external calendar calls made by
`delete_event`: the result of the list call, and for each event id the
exception (if any) raised by its delete call. -/
structure DelApi where
  listResult : Except PyStr (List CalItem)
  delResult : PyStr → Option PyStr

/-- The delete loop of `delete_event`: issue one delete call per listed
event, stopping at the first call that raises.  Returns the ids of the
issued delete calls and the exception message, if one was raised. -/
def runDeletes (f : PyStr → Option PyStr) : List CalItem → List PyStr × Option PyStr
  | [] => ([], none)
  | e :: rest =>
    match f e.id with
    | some exc => ([e.id], some exc)
    | none =>
      let r := runDeletes f rest
      (e.id :: r.1, r.2)

/-- Embedding of the tool `delete_event`.  Returns the ids of the issued
delete calls together with the returned string; the whole body is wrapped
in a try/except, so no exception escapes. -/
def delete_event (event_title date_str : PyStr) (api : DelApi) :
    List PyStr × PyStr :=
  match api.listResult with
  | Except.error e => ([], "Error deleting event: ".data ++ e)
  | Except.ok events =>
    if events = [] then
      ([], "No events found matching '".data ++ event_title ++ "' on ".data ++
        date_str ++ ".".data)
    else
      match runDeletes api.delResult events with
      | (calls, some exc) => (calls, "Error deleting event: ".data ++ exc)
      | (calls, none) =>
        (calls, "Removed ".data ++ natDigits events.length ++
          " event(s) matching '".data ++ event_title ++ "' from ".data ++
          date_str ++ ".".data)

/-- A chunk returned by the vector-store similarity search. -/
structure DocChunk where
  page_content : PyStr
deriving DecidableEq, Repr

/-- Embedding of Python `"\n\n".join(l)`. -/
def joinBlank : List PyStr → PyStr
  | [] => []
  | [d] => d
  | d :: rest => d ++ "\n\n".data ++ joinBlank rest

set_option linter.unusedVariables false in
/-- Embedding of the tool `search_syllabi`.  The `api` argument is the
outcome of `vector_db.similarity_search(query, k=3)`.  The body has no
try/except, so a failing search call propagates (an `Except.error` result
models the escaped exception). -/
def search_syllabi (query : PyStr) (api : Except PyStr (List DocChunk)) :
    Except PyStr PyStr :=
  match api with
  | Except.error e => Except.error e
  | Except.ok docs => Except.ok (joinBlank (docs.map DocChunk.page_content))

/- ===== Wrapper-tool thread ids (src/engine/agent.py) ===== -/

/-- The three specialist agents reachable through wrapper tools. -/
inductive Specialist where
  | calendar
  | research
  | advisor
deriving DecidableEq, Repr

/-- The fixed suffix tag each wrapper appends for its specialist. -/
def spTag : Specialist → PyStr
  | Specialist.calendar => "calendar".data
  | Specialist.research => "research".data
  | Specialist.advisor => "advisor".data

/-- Embedding of `set_thread_id`: the process-wide current-thread value
after a call (it is `None` before any call). -/
def set_thread_id (t : PyStr) : Option PyStr := some t

/-- Sub-thread id computed inside each wrapper tool:
`f"{_current_thread_id}_tag" if _current_thread_id else "tag"`.
A `none` current value models the Python `None` initial state, and an
empty string is likewise falsy. -/
def sub_thread_id (cur : Option PyStr) (s : Specialist) : PyStr :=
  match cur with
  | some t => if t ≠ [] then t ++ ('_' :: spTag s) else spTag s
  | none => spTag s

/- ===== Interface adapter (src/bot.py) ===== -/

/-- An inbound Discord message as seen by `on_message`. -/
structure DiscordMsg where
  author : Nat
  content : PyStr
  mentionsBot : Bool
  isDM : Bool

/-- The mention token the adapter removes from the message text:
the f-string `<@!{self.user.id}>`. -/
def mentionToken (botId : Nat) : PyStr :=
  "<@!".data ++ natDigits botId ++ ">".data

/-- The thread id computed by `on_message`:
`f"user_{message.author.id}_{int(time_bucket)}"` with
`time_bucket = timestamp // 1800`. -/
def thread_id (author ts : Nat) : PyStr :=
  "user_".data ++ natDigits author ++ ('_' :: natDigits (ts / 1800))

/-- The cleaned text passed to the dispatch entry point:
`message.content.replace(f"<@!{self.user.id}>", "").strip()`. -/
def user_query (botId : Nat) (content : PyStr) : PyStr :=
  pyStrip (delOcc (mentionToken botId) content)

/-- Embedding of `SentinelBot.on_message`: filter self-authored and
unaddressed messages; otherwise dispatch the cleaned text under the
computed thread id.  The result is the `(text, thread_id)` pair passed to
`ask_sentinel`, or `none` when the message is ignored. -/
def on_message (botId ts : Nat) (msg : DiscordMsg) : Option (PyStr × PyStr) :=
  if msg.author = botId then none
  else if msg.mentionsBot || msg.isDM then
    some (user_query botId msg.content, thread_id msg.author ts)
  else none


/-- Value of a digit list, most significant first. -/
def digitsVal (l : PyStr) : Nat := l.foldl (fun acc c => 10 * acc + dval c) 0

/-- Formalization of the strict two-digit "HH:MM" pattern named by the
claim: two decimal digits, a colon, two decimal digits. -/
def matchesHHMM (t : PyStr) : Bool :=
  match t with
  | [a, b, c, d, e] => a.isDigit && b.isDigit && decide (c = ':') && d.isDigit && e.isDigit
  | _ => false

/- ===== Helper lemmas ===== -/

lemma dval_digitChar : ∀ n, n < 10 → dval (digitChar n) = n := by decide

lemma digitsVal_append_digit (xs : PyStr) (c : Char) :
    digitsVal (xs ++ [c]) = 10 * digitsVal xs + dval c := by
  simp [digitsVal, List.foldl_append]

lemma digitsVal_natDigitsAux :
    ∀ fuel n, 0 < fuel → n < 10 ^ fuel → digitsVal (natDigitsAux fuel n) = n := by
  intro fuel
  induction fuel with
  | zero => intro n h; omega
  | succ f ih =>
    intro n _ hn
    by_cases h10 : n < 10
    · have h1 : digitsVal [digitChar n] = dval (digitChar n) := by simp [digitsVal]
      simp only [natDigitsAux, if_pos h10]
      rw [h1, dval_digitChar n h10]
    · have hf : 0 < f := by
        rcases Nat.eq_zero_or_pos f with h | h
        · subst h; simp at hn; omega
        · exact h
      have hdiv : n / 10 < 10 ^ f := by
        have : (10 : Nat) ^ (f + 1) = 10 ^ f * 10 := pow_succ 10 f
        rw [this] at hn
        omega
      simp only [natDigitsAux, if_neg h10]
      rw [digitsVal_append_digit, ih (n / 10) hf hdiv,
        dval_digitChar (n % 10) (Nat.mod_lt n (by omega))]
      omega

lemma digitsVal_natDigits (n : Nat) : digitsVal (natDigits n) = n := by
  apply digitsVal_natDigitsAux (n + 1) n (by omega)
  calc n < 10 ^ n := Nat.lt_pow_self (by norm_num) n
    _ ≤ 10 ^ (n + 1) := Nat.pow_le_pow_right (by norm_num) (by omega)

lemma natDigits_inj {a b : Nat} (h : natDigits a = natDigits b) : a = b := by
  have ha := digitsVal_natDigits a
  have hb := digitsVal_natDigits b
  rw [← ha, ← hb, h]

lemma take_rev_of_append_eq {l1 l2 a b : PyStr} (n : Nat)
    (h : l1 ++ a = l2 ++ b) (hn1 : n ≤ a.length) (hn2 : n ≤ b.length) :
    a.reverse.take n = b.reverse.take n := by
  have h' : a.reverse ++ l1.reverse = b.reverse ++ l2.reverse := by
    rw [← List.reverse_append, ← List.reverse_append, h]
  calc a.reverse.take n
      = (a.reverse ++ l1.reverse).take n :=
        (List.take_append_of_le_length (by simpa using hn1)).symm
    _ = (b.reverse ++ l2.reverse).take n := by rw [h']
    _ = b.reverse.take n := List.take_append_of_le_length (by simpa using hn2)

lemma spTag_length_le (s : Specialist) : (spTag s).length ≤ 8 := by
  cases s <;> decide

lemma spTag_length_ge (s : Specialist) : 7 ≤ (spTag s).length := by
  cases s <;> decide

lemma spTag_inj {s1 s2 : Specialist} (h : spTag s1 = spTag s2) : s1 = s2 := by
  cases s1 <;> cases s2 <;> first
    | rfl
    | exact absurd h (by decide)

/- ===== Claim theorems ===== -/

/-- C10: when the process-wide current-thread value was never set (`None`)
or was set to the empty string, each wrapper tool derives the bare fallback
sub-thread id "calendar", "research" or "advisor" respectively — a fixed
key independent of any user or parent thread. -/
theorem C10_fallback_sub_thread_ids :
    sub_thread_id none Specialist.calendar = "calendar".data ∧
    sub_thread_id none Specialist.research = "research".data ∧
    sub_thread_id none Specialist.advisor = "advisor".data ∧
    sub_thread_id (set_thread_id []) Specialist.calendar = "calendar".data ∧
    sub_thread_id (set_thread_id []) Specialist.research = "research".data ∧
    sub_thread_id (set_thread_id []) Specialist.advisor = "advisor".data := by
  refine ⟨rfl, rfl, rfl, ?_, ?_, ?_⟩ <;> decide

/-- C4: the sub-thread id derived by the wrapper tools is an injective
function of the pair (parent thread id, specialist): two equal sub-thread
ids force equal parent thread ids and equal specialists. -/
theorem C4_sub_thread_id_injective (t1 t2 : PyStr) (s1 s2 : Specialist)
    (h : sub_thread_id (set_thread_id t1) s1 = sub_thread_id (set_thread_id t2) s2) :
    t1 = t2 ∧ s1 = s2 := by
  unfold set_thread_id sub_thread_id at h
  by_cases h1 : t1 = [] <;> by_cases h2 : t2 = [] <;>
    simp only [h1, h2, if_pos, if_neg, ne_eq, not_true_eq_false, not_false_eq_true,
      ite_true, ite_false, if_true, if_false] at h
  · exact ⟨h1.trans h2.symm, spTag_inj h⟩
  · exfalso
    have hlen := congrArg List.length h
    simp only [List.length_append, List.length_cons] at hlen
    have ha := spTag_length_le s1
    have hb := spTag_length_ge s2
    have hc : 0 < t2.length := List.length_pos.mpr h2
    omega
  · exfalso
    have hlen := congrArg List.length h
    simp only [List.length_append, List.length_cons] at hlen
    have ha := spTag_length_le s2
    have hb := spTag_length_ge s1
    have hc : 0 < t1.length := List.length_pos.mpr h1
    omega
  · have hkey := take_rev_of_append_eq 8 h
      (by have := spTag_length_ge s1; simp [List.length_cons]; omega)
      (by have := spTag_length_ge s2; simp [List.length_cons]; omega)
    have hs : s1 = s2 := by
      cases s1 <;> cases s2 <;> first
        | rfl
        | exact absurd hkey (by decide)
    subst hs
    exact ⟨List.append_cancel_right h, rfl⟩

/-- C4 witness: the injectivity theorem applied at a concrete input. -/
theorem C4_sub_thread_id_injective_witness :
    ("user_42_1".data : PyStr) = "user_42_1".data ∧
      Specialist.calendar = Specialist.calendar :=
  C4_sub_thread_id_injective ("user_42_1".data) ("user_42_1".data)
    Specialist.calendar Specialist.calendar rfl

/-- C5: the thread id computed by the adapter equals
"user_" ++ author id ++ "_" ++ floor(timestamp / 1800); two ids from the
same author and the same 1800-second bucket coincide, and ids of the same
author from different buckets are distinct strings. -/
theorem C5_thread_id_buckets :
    (∀ botId ts msg q tid, on_message botId ts msg = some (q, tid) →
      tid = "user_".data ++ natDigits msg.author ++ ('_' :: natDigits (ts / 1800))) ∧
    (∀ a ts1 ts2, ts1 / 1800 = ts2 / 1800 → thread_id a ts1 = thread_id a ts2) ∧
    (∀ a ts1 ts2, ts1 / 1800 ≠ ts2 / 1800 → thread_id a ts1 ≠ thread_id a ts2) := by
  refine ⟨?_, ?_, ?_⟩
  · intro botId ts msg q tid h
    unfold on_message at h
    split at h
    · simp at h
    · split at h
      · simp only [Option.some.injEq, Prod.mk.injEq] at h
        exact h.2.symm
      · simp at h
  · intro a ts1 ts2 h
    unfold thread_id
    rw [h]
  · intro a ts1 ts2 hne heq
    apply hne
    unfold thread_id at heq
    have h1 := List.append_cancel_left heq
    have h3 : natDigits (ts1 / 1800) = natDigits (ts2 / 1800) := by
      injection h1
    exact natDigits_inj h3

/-- C5 witness: the theorem applied at concrete inputs (author 456, bot 123,
timestamps 100 and 1800 in distinct buckets, 100 and 200 in the same one). -/
theorem C5_thread_id_buckets_witness :
    ("user_456_0".data : PyStr) =
      "user_".data ++ natDigits 456 ++ ('_' :: natDigits (100 / 1800)) ∧
    thread_id 456 100 = thread_id 456 200 ∧
    thread_id 456 100 ≠ thread_id 456 1800 :=
  ⟨C5_thread_id_buckets.1 123 100 ⟨456, "hi".data, true, false⟩
      ("hi".data) ("user_456_0".data) (by decide),
    C5_thread_id_buckets.2.1 456 100 200 (by decide),
    C5_thread_id_buckets.2.2 456 100 1800 (by decide)⟩

/-- C9 counterexample: for bot id 123 and raw content "<@!<@!123>123>" the
adapter's single-pass deletion of the token "<@!123>" juxtaposes the outer
fragments into a fresh "<@!123>", so the text passed to dispatch is exactly
the bot's mention token — a mention of the bot remains, refuting the claim
that no mention survives in the dispatched text. -/
theorem C9_counterexample :
    on_message 123 0 ⟨456, "<@!<@!123>123>".data, true, false⟩ =
      some (mentionToken 123, "user_456_0".data) ∧
    mentionToken 123 = "<@!123>".data := by
  constructor <;> decide

/-- C9 (amended): for every dispatched message, the text passed to the
dispatch entry point equals the raw content with the non-overlapping
occurrences of the token "<@!{bot id}>" deleted in one left-to-right pass
and surrounding whitespace stripped (deletion can juxtapose fragments into
a new mention, which then remains). -/
theorem C9_dispatched_text (botId ts : Nat) (msg : DiscordMsg) (q tid : PyStr)
    (h : on_message botId ts msg = some (q, tid)) :
    q = pyStrip (delOcc (mentionToken botId) msg.content) := by
  unfold on_message at h
  split at h
  · simp at h
  · split at h
    · simp only [Option.some.injEq, Prod.mk.injEq] at h
      exact h.1.symm
    · simp at h

/-- C9 witness: the amended theorem applied at a concrete input. -/
theorem C9_dispatched_text_witness :
    ("hello".data : PyStr) =
      pyStrip (delOcc (mentionToken 123) (" <@!123> hello ".data)) :=
  C9_dispatched_text 123 0 ⟨456, " <@!123> hello ".data, true, false⟩
    ("hello".data) ("user_456_0".data) (by decide)

/-- Helper: a location/description placeholder value normalizes to `None`
in the timed branch of `add_to_calendar`. -/
lemma norm_timed_placeholder {p : PyStr}
    (hp : pyUpper p ∈ fieldPlaceholders ∨ p = []) : norm_timed p = none := by
  unfold norm_timed
  rw [if_neg]
  rintro ⟨hne, hnotin⟩
  rcases hp with hp | hp
  · exact hnotin hp
  · exact hne hp

/-- Helper: a location/description placeholder value normalizes to `None`
in the all-day branch of `add_to_calendar`. -/
lemma norm_allday_placeholder {p : PyStr}
    (hp : pyUpper p ∈ fieldPlaceholders ∨ p = []) : norm_allday p = none := by
  unfold norm_allday
  rw [if_neg]
  rintro ⟨hne, _, hnotin⟩
  rcases hp with hp | hp
  · exact hnotin hp
  · exact hne hp

/-- Helper: a time placeholder value makes the timed condition false. -/
lemma is_timed_placeholder {p : PyStr}
    (hp : pyUpper p ∈ timePlaceholders ∨ p = []) : is_timed p = false := by
  unfold is_timed
  simp only [decide_eq_false_iff_not]
  rintro ⟨hne, _, hnotin⟩
  rcases hp with hp | hp
  · exact hnotin hp
  · exact hne hp

/-- C1 counterexample: with description "TBD" the built event equals the one
built with description "", but the returned confirmation string echoes the
raw placeholder ("Room: TBD") instead of the "Room: N/A" produced for "",
so `add_to_calendar` does not behave identically on the two inputs. -/
theorem C1_counterexample :
    add_to_calendar ("T".data) ("2025-01-01".data) [] [] ("TBD".data)
        (Except.ok ()) ≠
      add_to_calendar ("T".data) ("2025-01-01".data) [] [] [] (Except.ok ()) := by
  intro h
  exact absurd (congrArg Except.toOption h) (by decide)

/-- C1 (amended): the placeholder equivalence holds for `time_str` with the
full recognized set (upper-casing in {"", "TBD", "NONE", "UNKNOWN", "N/A"}),
and for `location` with {"", "TBD", "NONE", "UNKNOWN"} (the returned string
never mentions the location); for `description` with
{"", "TBD", "NONE", "UNKNOWN"} only the built event object coincides with
the empty-string case, the confirmation string echoing the raw value; and
"N/A" is not normalized at all in the location/description positions. -/
theorem C1_placeholder_equivalence :
    (∀ title date_str location description p api,
      pyUpper p ∈ timePlaceholders ∨ p = [] →
      add_to_calendar title date_str p location description api =
        add_to_calendar title date_str [] location description api) ∧
    (∀ title date_str time_str description p api,
      pyUpper p ∈ fieldPlaceholders ∨ p = [] →
      add_to_calendar title date_str time_str p description api =
        add_to_calendar title date_str time_str [] description api) ∧
    (∀ title date_str time_str location p,
      pyUpper p ∈ fieldPlaceholders ∨ p = [] →
      build_event title date_str time_str location p =
        build_event title date_str time_str location []) := by
  have hb2 : ∀ title date_str time_str description p,
      pyUpper p ∈ fieldPlaceholders ∨ p = [] →
      build_event title date_str time_str p description =
        build_event title date_str time_str [] description := by
    intro title date_str time_str description p hp
    unfold build_event alldayEvent
    rw [norm_timed_placeholder hp, norm_allday_placeholder hp,
      norm_timed_placeholder (Or.inr rfl), norm_allday_placeholder (Or.inr rfl)]
  have hb3 : ∀ title date_str time_str location p,
      pyUpper p ∈ fieldPlaceholders ∨ p = [] →
      build_event title date_str time_str location p =
        build_event title date_str time_str location [] := by
    intro title date_str time_str location p hp
    unfold build_event alldayEvent
    rw [norm_timed_placeholder hp, norm_allday_placeholder hp,
      norm_timed_placeholder (Or.inr rfl), norm_allday_placeholder (Or.inr rfl)]
  refine ⟨?_, ?_, hb3⟩
  · intro title date_str location description p api hp
    have ht := is_timed_placeholder hp
    have ht0 := is_timed_placeholder (p := []) (Or.inr rfl)
    unfold add_to_calendar build_event
    rw [ht, ht0]
    exact rfl
  · intro title date_str time_str description p api hp
    unfold add_to_calendar
    rw [hb2 title date_str time_str description p hp]

/-- C1 witness: the amended theorem applied at concrete inputs ("n/a" as
time placeholder, "tbd" as location placeholder, "Unknown" as description
placeholder). -/
theorem C1_placeholder_equivalence_witness :
    add_to_calendar ("T".data) ("2025-01-01".data) ("n/a".data) []
        ("Room 5".data) (Except.ok ()) =
      add_to_calendar ("T".data) ("2025-01-01".data) [] [] ("Room 5".data)
        (Except.ok ()) ∧
    add_to_calendar ("T".data) ("2025-01-01".data) [] ("tbd".data) []
        (Except.ok ()) =
      add_to_calendar ("T".data) ("2025-01-01".data) [] [] [] (Except.ok ()) ∧
    build_event ("T".data) ("2025-01-01".data) [] [] ("Unknown".data) =
      build_event ("T".data) ("2025-01-01".data) [] [] [] :=
  ⟨C1_placeholder_equivalence.1 ("T".data) ("2025-01-01".data) []
      ("Room 5".data) ("n/a".data) (Except.ok ()) (Or.inl (by decide)),
    C1_placeholder_equivalence.2.1 ("T".data) ("2025-01-01".data) [] []
      ("tbd".data) (Except.ok ()) (Or.inl (by decide)),
    C1_placeholder_equivalence.2.2 ("T".data) ("2025-01-01".data) [] []
      ("Unknown".data) (Or.inl (by decide))⟩

/-- C2 counterexample: the time string "9:30" does not match the strict
HH:MM pattern, yet CPython's strptime accepts a one-digit hour, so
`add_to_calendar` builds a timed event (dateTime bounds), not an all-day
one. -/
theorem C2_counterexample :
    matchesHHMM ("9:30".data) = false ∧
    build_event ("T".data) ("2025-02-04".data) ("9:30".data) [] [] =
      Except.ok
        { summary := "T".data
          location := none
          description := none
          colorId := none
          start := EventTime.timed ("2025-02-04T9:30:00".data) TIMEZONE
          end_ := EventTime.timed ("2025-02-04T10:30:00".data) TIMEZONE } := by
  constructor <;> decide

/-- C2 (amended): whenever the time string is absent (falsy or a
placeholder) or the combined string fails to parse under CPython's
"%Y-%m-%dT%H:%M:%S" (which also accepts one-digit hour and minute fields),
`add_to_calendar` builds the all-day event with date-only start and end
bounds and no exception escapes the build. -/
theorem C2_allday_fallback (title date_str time_str location description : PyStr)
    (h : is_timed time_str = true →
      strptime_ymdhms (date_str ++ "T".data ++ time_str ++ ":00".data) = none) :
    build_event title date_str time_str location description =
      Except.ok (alldayEvent title date_str location description (color_id title)) := by
  unfold build_event
  by_cases ht : is_timed time_str
  · rw [ht, h ht]
    exact rfl
  · rw [Bool.not_eq_true] at ht
    rw [ht]
    exact rfl

/-- C2 witness: the amended theorem applied at a parse-failing time string
"25:00" (valid syntax, hour out of range). -/
theorem C2_allday_fallback_witness :
    build_event ("T".data) ("2025-02-04".data) ("25:00".data) [] [] =
      Except.ok (alldayEvent ("T".data) ("2025-02-04".data) [] []
        (color_id ("T".data))) :=
  C2_allday_fallback ("T".data) ("2025-02-04".data) ("25:00".data) [] []
    (fun _ => by decide)

/-- C3 counterexample: `search_syllabi` has no try/except around the vector
search, so a failing search call propagates out of the tool instead of
being converted to an error string. -/
theorem C3_counterexample :
    search_syllabi ("q".data) (Except.error ("boom".data)) =
      Except.error ("boom".data) := rfl

/-- C3 (amended): failures of the external calendar calls are caught at the
tool boundary and converted to descriptive error strings — the insert
failure in `add_to_calendar` and both the list failure and a mid-loop
delete failure in `delete_event`; the document-search tool, by contrast,
has no handler (see the counterexample). -/
theorem C3_calendar_errors_caught :
    (∀ title date_str time_str location description ev e,
      build_event title date_str time_str location description = Except.ok ev →
      add_to_calendar title date_str time_str location description
          (Except.error e) =
        Except.ok (ev, "Error adding event: ".data ++ e)) ∧
    (∀ t d api e, api.listResult = Except.error e →
      delete_event t d api = ([], "Error deleting event: ".data ++ e)) ∧
    (∀ t d api evs calls exc, api.listResult = Except.ok evs → evs ≠ [] →
      runDeletes api.delResult evs = (calls, some exc) →
      delete_event t d api = (calls, "Error deleting event: ".data ++ exc)) := by
  refine ⟨?_, ?_, ?_⟩
  · intro title date_str time_str location description ev e hb
    unfold add_to_calendar
    rw [hb]
  · intro t d api e hl
    unfold delete_event
    rw [hl]
  · intro t d api evs calls exc hl hne hr
    unfold delete_event
    rw [hl]
    simp only [if_neg hne, hr]

/-- C3 witness: the amended theorem applied at concrete failing calls. -/
theorem C3_calendar_errors_caught_witness :
    add_to_calendar ("T".data) ("2025-01-01".data) [] [] []
        (Except.error ("http 500".data)) =
      Except.ok (alldayEvent ("T".data) ("2025-01-01".data) [] []
          (color_id ("T".data)),
        "Error adding event: ".data ++ "http 500".data) ∧
    delete_event ("T".data) ("2025-01-01".data)
        ⟨Except.error ("http 500".data), fun _ => none⟩ =
      ([], "Error deleting event: ".data ++ "http 500".data) ∧
    delete_event ("T".data) ("2025-01-01".data)
        ⟨Except.ok [⟨"id1".data, "T".data⟩], fun _ => some ("http 500".data)⟩ =
      (["id1".data], "Error deleting event: ".data ++ "http 500".data) :=
  ⟨C3_calendar_errors_caught.1 ("T".data) ("2025-01-01".data) [] [] [] _
      ("http 500".data) (by decide),
    C3_calendar_errors_caught.2.1 ("T".data) ("2025-01-01".data) _
      ("http 500".data) rfl,
    C3_calendar_errors_caught.2.2 ("T".data) ("2025-01-01".data) _
      [⟨"id1".data, "T".data⟩] (["id1".data]) ("http 500".data) rfl
      (by decide) rfl⟩

/-- Helper: when every delete call succeeds, the delete loop issues exactly
one call per listed event, in order. -/
lemma runDeletes_all_ok (f : PyStr → Option PyStr) :
    ∀ evs : List CalItem, (∀ e ∈ evs, f e.id = none) →
      runDeletes f evs = (evs.map CalItem.id, none) := by
  intro evs
  induction evs with
  | nil => intro _; rfl
  | cons e rest ih =>
    intro h
    unfold runDeletes
    rw [h e (by simp), ih (fun x hx => h x (by simp [hx]))]
    exact rfl

/-- C6: when the list call returns the day's matches and every delete call
succeeds, `delete_event` issues exactly one delete call per match (none for
zero matches) and returns the "no events found" message naming the title
and date for zero matches, or the count-bearing confirmation otherwise. -/
theorem C6_delete_event_matches (t d : PyStr) (api : DelApi)
    (evs : List CalItem) (hl : api.listResult = Except.ok evs)
    (hd : ∀ e ∈ evs, api.delResult e.id = none) :
    delete_event t d api =
      (evs.map CalItem.id,
        if evs = [] then
          "No events found matching '".data ++ t ++ "' on ".data ++ d ++ ".".data
        else
          "Removed ".data ++ natDigits evs.length ++
            " event(s) matching '".data ++ t ++ "' from ".data ++ d ++ ".".data) ∧
    (evs.map CalItem.id).length = evs.length := by
  constructor
  · unfold delete_event
    rw [hl]
    by_cases he : evs = []
    · subst he
      simp
    · simp only [if_neg he, runDeletes_all_ok api.delResult evs hd]
  · exact List.length_map evs CalItem.id

/-- C6 witness: the theorem applied at a zero-match input and a two-match
input. -/
theorem C6_delete_event_matches_witness :
    delete_event ("T".data) ("2025-01-01".data) ⟨Except.ok [], fun _ => none⟩ =
      ([], "No events found matching '".data ++ "T".data ++ "' on ".data ++
        "2025-01-01".data ++ ".".data) ∧
    delete_event ("T".data) ("2025-01-01".data)
        ⟨Except.ok [⟨"a".data, "T".data⟩, ⟨"b".data, "T".data⟩], fun _ => none⟩ =
      (["a".data, "b".data],
        "Removed ".data ++ natDigits 2 ++ " event(s) matching '".data ++
          "T".data ++ "' from ".data ++ "2025-01-01".data ++ ".".data) :=
  ⟨by
    have h := C6_delete_event_matches ("T".data) ("2025-01-01".data)
      ⟨Except.ok [], fun _ => none⟩ [] rfl (by simp)
    simpa using h.1,
  by
    have h := C6_delete_event_matches ("T".data) ("2025-01-01".data)
      ⟨Except.ok [⟨"a".data, "T".data⟩, ⟨"b".data, "T".data⟩], fun _ => none⟩
      [⟨"a".data, "T".data⟩, ⟨"b".data, "T".data⟩] rfl (by simp)
    simpa using h.1⟩

/-- Helper: every successfully built event carries the computed color id. -/
lemma build_event_colorId (title date_str time_str location description : PyStr)
    (ev : GEvent)
    (h : build_event title date_str time_str location description = Except.ok ev) :
    ev.colorId = color_id title := by
  unfold build_event at h
  by_cases ht : is_timed time_str
  · rw [ht] at h
    simp only [if_true] at h
    rcases hs : strptime_ymdhms (date_str ++ "T".data ++ time_str ++ ":00".data) with
      _ | t0
    · simp only [hs, Except.ok.injEq] at h
      rw [← h]
      rfl
    · rcases ha : addHour t0 with _ | t1
      · simp only [hs, ha] at h
        exact Except.noConfusion h
      · simp only [hs, ha, Except.ok.injEq] at h
        rw [← h]
  · rw [Bool.not_eq_true] at ht
    rw [ht] at h
    simp only [Bool.false_eq_true, if_false, Except.ok.injEq] at h
    rw [← h]
    rfl

/-- C7: an event built by `add_to_calendar` (timed or all-day) carries the
exam color tag (colorId "8") exactly when the lower-cased title contains
"exam", "midterm" or "quiz" as a substring. -/
theorem C7_exam_color_tag (title date_str time_str location description : PyStr)
    (ev : GEvent)
    (h : build_event title date_str time_str location description = Except.ok ev) :
    ev.colorId = some ("8".data) ↔ hasExamKeyword title = true := by
  rw [build_event_colorId title date_str time_str location description ev h]
  unfold color_id
  by_cases hk : hasExamKeyword title
  · simp [hk]
  · simp [hk]

/-- Helper: a parsed datetime satisfies the constructor's range checks. -/
lemma strptime_valid {s : PyStr} {t : PyDateTime}
    (h : strptime_ymdhms s = some t) : validDT t = true := by
  unfold strptime_ymdhms at h
  rcases hr : rawParse s with _ | t2
  · rw [hr] at h
    exact Option.noConfusion h
  · simp only [hr] at h
    by_cases hv : validDT t2 = true
    · rw [if_pos hv] at h
      injection h with h'
      rw [← h']
      exact hv
    · rw [if_neg hv] at h
      exact Option.noConfusion h

/-- Helper: days before month 1 are zero. -/
lemma dbm_one (y : Nat) : daysBeforeMonth y 1 = 0 := by
  unfold daysBeforeMonth monthOffset
  rw [if_pos rfl, if_neg]
  rintro ⟨h3, _⟩
  omega

/-- Helper: cumulative month offsets advance by the month length. -/
lemma dbm_next (y m : Nat) (h1 : 1 ≤ m) (h2 : m ≤ 11) :
    daysBeforeMonth y (m + 1) = daysBeforeMonth y m + daysInMonth y m := by
  rcases hb : isLeap y <;>
    interval_cases m <;>
      simp [daysBeforeMonth, monthOffset, daysInMonth, hb]

/-- Helper: days before a year advance by 365 plus the leap correction. -/
lemma dby_next (y : Nat) (hy : 1 ≤ y) :
    daysBeforeYear (y + 1) =
      daysBeforeYear y + 365 + (if isLeap y then 1 else 0) := by
  obtain ⟨z, rfl⟩ : ∃ z, y = z + 1 := ⟨y - 1, by omega⟩
  unfold daysBeforeYear isLeap
  simp only [Nat.add_sub_cancel, decide_eq_true_eq]
  have hds := Nat.div_le_self z 100
  have hbR : z / 100 ≤ 365 * z + z / 4 + z / 400 := by omega
  split_ifs with hl
  · obtain ⟨h4, hrest⟩ := hl
    have e4 : (z + 1) / 4 = z / 4 + 1 := by omega
    rcases hrest with h100 | h400
    · have e100 : (z + 1) / 100 = z / 100 := by omega
      have e400 : (z + 1) / 400 = z / 400 := by omega
      rw [e4, e100, e400]
      zify [hbR, show z / 100 ≤ 365 * (z + 1) + (z / 4 + 1) + z / 400 from by
        omega]
      omega
    · have e100 : (z + 1) / 100 = z / 100 + 1 := by omega
      have e400 : (z + 1) / 400 = z / 400 + 1 := by omega
      rw [e4, e100, e400]
      zify [hbR, show z / 100 + 1 ≤ 365 * (z + 1) + (z / 4 + 1) + (z / 400 + 1)
        from by omega]
      omega
  · push_neg at hl
    by_cases h4 : (z + 1) % 4 = 0
    · obtain ⟨h100, h400⟩ := hl h4
      have e4 : (z + 1) / 4 = z / 4 + 1 := by omega
      have e100 : (z + 1) / 100 = z / 100 + 1 := by omega
      have e400 : (z + 1) / 400 = z / 400 := by omega
      rw [e4, e100, e400]
      zify [hbR, show z / 100 + 1 ≤ 365 * (z + 1) + (z / 4 + 1) + z / 400 from by
        omega]
      omega
    · have e4 : (z + 1) / 4 = z / 4 := by omega
      have e100 : (z + 1) / 100 = z / 100 := by omega
      have e400 : (z + 1) / 400 = z / 400 := by omega
      rw [e4, e100, e400]
      zify [hbR, show z / 100 ≤ 365 * (z + 1) + z / 4 + z / 400 from by omega]
      omega

/-- Helper: the embedded one-hour addition advances the linear seconds
scale by exactly 3600 on every valid datetime. -/
lemma toSecs_addHour (t t' : PyDateTime) (hv : validDT t = true)
    (h : addHour t = some t') : toSecs t' = toSecs t + 3600 := by
  unfold validDT at hv
  simp only [decide_eq_true_eq] at hv
  obtain ⟨hy1, hy2, hm1, hm2, hd1, hd2, hh23, hmi, hsec⟩ := hv
  unfold addHour at h
  split_ifs at h with h1 h2 h3 h4
  · injection h with h'
    subst h'
    unfold toSecs toOrdinal
    simp only
    omega
  · injection h with h'
    subst h'
    unfold toSecs toOrdinal
    simp only
    omega
  · injection h with h'
    subst h'
    unfold toSecs toOrdinal
    simp only
    rw [dbm_next t.year t.month hm1 (by omega)]
    omega
  · injection h with h'
    subst h'
    have hm12 : t.month = 12 := by omega
    rw [hm12] at h2 hd2
    unfold toSecs toOrdinal
    simp only
    rw [hm12, dbm_one, dby_next t.year hy1]
    have hdim : daysInMonth t.year 12 = 31 := by norm_num [daysInMonth]
    have hdbm : daysBeforeMonth t.year 12 = 334 + (if isLeap t.year then 1 else 0) := by
      unfold daysBeforeMonth monthOffset
      norm_num
    rw [hdim] at h2 hd2
    rw [hdbm]
    split_ifs <;> omega

/-- C8 counterexample: at date 9999-12-31 and time 23:30 the combined
string parses, but adding one hour overflows `datetime.max`, so
`add_to_calendar` raises an OverflowError (uncaught: only ValueError is
handled) instead of building the claimed timed event. -/
theorem C8_counterexample :
    is_timed ("23:30".data) = true ∧
    strptime_ymdhms ("9999-12-31T23:30:00".data) =
      some ⟨9999, 12, 31, 23, 30, 0⟩ ∧
    build_event ("T".data) ("9999-12-31".data) ("23:30".data) [] [] =
      Except.error overflowMsg := by
  refine ⟨by decide, by decide, by decide⟩

/-- C8 (amended): whenever the time string is present, the combined string
parses, and the one-hour addition stays within year 9999, the built event
is timed with the raw combined string as start dateTime, the formatted
successor as end dateTime one hour (3600 seconds) later, and the fixed
America/New_York timezone on both bounds. -/
theorem C8_timed_event (title date_str time_str location description : PyStr)
    (t0 t1 : PyDateTime) (ht : is_timed time_str = true)
    (hp : strptime_ymdhms (date_str ++ "T".data ++ time_str ++ ":00".data) =
      some t0)
    (ha : addHour t0 = some t1) :
    build_event title date_str time_str location description =
      Except.ok
        { summary := title
          location := norm_timed location
          description := norm_timed description
          colorId := color_id title
          start := EventTime.timed (date_str ++ "T".data ++ time_str ++ ":00".data)
            TIMEZONE
          end_ := EventTime.timed (strftime_ymdhms t1) TIMEZONE } ∧
    toSecs t1 = toSecs t0 + 3600 := by
  constructor
  · unfold build_event
    rw [ht]
    simp only [if_true, hp, ha]
  · exact toSecs_addHour t0 t1 (strptime_valid hp) ha

/-- C8 witness: the amended theorem applied at the concrete input
2025-02-04 14:00, whose one-hour successor is 15:00 the same day. -/
theorem C8_timed_event_witness :
    build_event ("MATH 291: Exam 1".data) ("2025-02-04".data) ("14:00".data)
        ("Bossone".data) ("201".data) =
      Except.ok
        { summary := "MATH 291: Exam 1".data
          location := norm_timed ("Bossone".data)
          description := norm_timed ("201".data)
          colorId := color_id ("MATH 291: Exam 1".data)
          start := EventTime.timed
            ("2025-02-04".data ++ "T".data ++ "14:00".data ++ ":00".data) TIMEZONE
          end_ := EventTime.timed (strftime_ymdhms ⟨2025, 2, 4, 15, 0, 0⟩)
            TIMEZONE } ∧
    toSecs ⟨2025, 2, 4, 15, 0, 0⟩ = toSecs ⟨2025, 2, 4, 14, 0, 0⟩ + 3600 :=
  C8_timed_event ("MATH 291: Exam 1".data) ("2025-02-04".data) ("14:00".data)
    ("Bossone".data) ("201".data) ⟨2025, 2, 4, 14, 0, 0⟩ ⟨2025, 2, 4, 15, 0, 0⟩
    (by decide) (by decide) (by decide)

/-- C7 witness: the theorem applied to a "Midterm" title (mixed case,
tagged) and a keyword-free title (untagged), one timed and one all-day. -/
theorem C7_exam_color_tag_witness :
    (∃ ev, build_event ("MATH 291: MiDtErM 1".data) ("2025-02-04".data)
        ("14:00".data) [] [] = Except.ok ev ∧ ev.colorId = some ("8".data)) ∧
    (∃ ev, build_event ("MATH 291: Review".data) ("2025-02-04".data) [] [] [] =
        Except.ok ev ∧ ¬ ev.colorId = some ("8".data)) := by
  constructor
  · refine ⟨_, rfl, ?_⟩
    rw [C7_exam_color_tag ("MATH 291: MiDtErM 1".data) ("2025-02-04".data)
      ("14:00".data) [] [] _ rfl]
    decide
  · refine ⟨_, rfl, fun hcol => ?_⟩
    have h := C7_exam_color_tag ("MATH 291: Review".data) ("2025-02-04".data)
      [] [] [] _ rfl
    exact absurd (h.mp hcol) (by decide)
